import Mathlib

/-!
Verification development for the Legato Data Hub IO and Query services.

The embedded code is translated from the two C sources of the repository:
`ioService.c` (the client IO facade, `io_*`) and
`components/dataHub/queryService.c` (the query facade, `query_*`).
The `resTree_*` / `dataSample_*` layer and the `le_utf8_Copy` helper are not
part of the sources; they are modelled from the specification, as marked on
each of their doc comments.
-/

namespace LegatoDataHub

/-- Result codes of the Legato `le_result_t` type, restricted to the codes
used by the Data Hub IO and Query services. -/
inductive LeResult
  | ok
  | notFound
  | duplicate
  | unavailable
  | unsupported
  | formatError
  | overflow
  | fault
  | noMemory
deriving DecidableEq

/-- `io_DataType_t`: the data type of a resource or data sample. -/
inductive IoDataType
  | trigger
  | boolean
  | numeric
  | str
  | json
deriving DecidableEq

/-- `admin_EntryType_t`: the role of a resource tree entry.  `nspace` stands
for `ADMIN_ENTRY_TYPE_NAMESPACE` (`namespace` is a Lean keyword). -/
inductive AdminEntryType
  | nspace
  | placeholder
  | input
  | output
  | observation
deriving DecidableEq

/-- IEEE-754 doubles as used by the Data Hub (timestamps, numeric sample
values and the `startAfter` / `startTime` query arguments), modelled as exact
rationals plus NaN.  The embedded code only stores, compares and copies these
values, so no rounding behaviour is needed. -/
inductive Dbl
  | nan
  | val (q : Rat)
deriving DecidableEq

/-- C `<` on doubles: any comparison involving NaN is false. -/
def Dbl.lt : Dbl → Dbl → Bool
  | Dbl.val a, Dbl.val b => decide (a < b)
  | _, _ => false

/-- Kind-discriminated payload of a data sample. -/
inductive SampleValue
  | trig
  | boolVal (b : Bool)
  | numVal (v : Dbl)
  | strVal (s : String)
  | jsonVal (s : String)
deriving DecidableEq

/-- Modelled from the spec: the Data Sample entity of `dataSample.c`, which is
not among the sources.  An immutable (timestamp, kind-discriminated value)
pair (spec section 3.1). -/
structure DataSample where
  timestamp : Dbl
  value : SampleValue
deriving DecidableEq

/-- Modelled from the spec: `dataSample_CreateTrigger` (missing
`dataSample.c`). -/
def dataSample_CreateTrigger (timestamp : Dbl) : DataSample :=
  ⟨timestamp, SampleValue.trig⟩

/-- Modelled from the spec: `dataSample_CreateBoolean` (missing
`dataSample.c`). -/
def dataSample_CreateBoolean (timestamp : Dbl) (value : Bool) : DataSample :=
  ⟨timestamp, SampleValue.boolVal value⟩

/-- Modelled from the spec: `dataSample_CreateNumeric` (missing
`dataSample.c`). -/
def dataSample_CreateNumeric (timestamp : Dbl) (value : Dbl) : DataSample :=
  ⟨timestamp, SampleValue.numVal value⟩

/-- Modelled from the spec: `dataSample_CreateString` (missing
`dataSample.c`). -/
def dataSample_CreateString (timestamp : Dbl) (value : String) : DataSample :=
  ⟨timestamp, SampleValue.strVal value⟩

/-- Modelled from the spec: `dataSample_CreateJson` (missing
`dataSample.c`). -/
def dataSample_CreateJson (timestamp : Dbl) (value : String) : DataSample :=
  ⟨timestamp, SampleValue.jsonVal value⟩

/-- Modelled from the spec: `dataSample_GetTimestamp` (missing
`dataSample.c`). -/
def dataSample_GetTimestamp (s : DataSample) : Dbl :=
  s.timestamp

/-- Modelled from the spec: `dataSample_GetBoolean` (missing `dataSample.c`).
Fetching the wrong kind is a caller-contract violation (spec section 4.2);
the model returns a junk value in that case. -/
def dataSample_GetBoolean (s : DataSample) : Bool :=
  match s.value with
  | SampleValue.boolVal b => b
  | _ => false

/-- Modelled from the spec: `dataSample_GetNumeric` (missing
`dataSample.c`). -/
def dataSample_GetNumeric (s : DataSample) : Dbl :=
  match s.value with
  | SampleValue.numVal v => v
  | _ => Dbl.nan

/-- Modelled from the spec: `dataSample_GetString` (missing
`dataSample.c`). -/
def dataSample_GetString (s : DataSample) : String :=
  match s.value with
  | SampleValue.strVal v => v
  | _ => ""

/-- Modelled from the spec: `dataSample_GetJson` (missing `dataSample.c`). -/
def dataSample_GetJson (s : DataSample) : String :=
  match s.value with
  | SampleValue.jsonVal v => v
  | _ => ""

/-- JSON escape of one character (quote and backslash escaped). -/
def jsonEscapeChar (c : Char) : String :=
  if c = '"' then "\\\""
  else if c = '\\' then "\\\\"
  else String.singleton c

/-- JSON string literal for a text value (spec section 4.2). -/
def jsonEscape (s : String) : String :=
  String.append (String.append "\"" (String.join (s.data.map jsonEscapeChar))) "\""

/-- Text of a numeric sample value in a JSON projection.  The exact digit
string of a double is not relevant to any claim; NaN projects to `null`. -/
def dblToJsonString : Dbl → String
  | Dbl.nan => "null"
  | Dbl.val q => toString q

/-- Modelled from the spec: the JSON projection of a sample of a given data
type (spec section 4.2): Trigger to `null`, Boolean to `true` / `false`,
Numeric to a number, String to a JSON string literal, Json verbatim. -/
def jsonProjection (dt : IoDataType) (s : DataSample) : String :=
  match dt with
  | IoDataType.trigger => "null"
  | IoDataType.boolean => if dataSample_GetBoolean s then "true" else "false"
  | IoDataType.numeric => dblToJsonString (dataSample_GetNumeric s)
  | IoDataType.str => jsonEscape (dataSample_GetString s)
  | IoDataType.json => dataSample_GetJson s

/-- Modelled from the spec: the Legato framework helper `le_utf8_Copy`
(not part of the repository): copy `src` into a destination buffer of
`size` bytes, truncating and reporting `LE_OVERFLOW` when the source (plus
its terminator) does not fit.  `destIn` is the previous content of the
destination buffer; byte/character distinctions of UTF-8 are irrelevant to
the claims and are not modelled. -/
def le_utf8_Copy (src : String) (size : Nat) (destIn : String) : LeResult × String :=
  if size = 0 then (LeResult.overflow, destIn)
  else if src.length < size then (LeResult.ok, src)
  else (LeResult.overflow, String.mk (src.data.take (size - 1)))

/-- Modelled from the spec: `dataSample_ConvertToJson` (missing
`dataSample.c`): write the JSON projection of a sample, truncating on
overflow (spec section 4.2). -/
def dataSample_ConvertToJson (s : DataSample) (dt : IoDataType) (size : Nat)
    (destIn : String) : LeResult × String :=
  le_utf8_Copy (jsonProjection dt s) size destIn

/-- Modelled from the spec: the per-entry resource state of the missing
`resource.c` (spec section 3.1): data type, units, optional current value,
write-once optional default, and, for Observations, a bounded history buffer
with its administratively configured size cap (`maxCount = 0` means no cap;
the time-window cap is administrative configuration that no source function
under test consults). -/
structure Resource where
  dataType : IoDataType
  units : String
  currentValue : Option DataSample
  defaultValue : Option DataSample
  buffer : List DataSample
  maxCount : Nat
deriving DecidableEq

/-- Modelled from the spec: a resource tree entry of the missing `resTree.c`
(spec section 3.1): a role tag and the attached resource state. -/
structure Entry where
  entryType : AdminEntryType
  res : Resource
deriving DecidableEq

/-- Modelled from the spec: the resource tree of the missing `resTree.c`,
as a finite map from absolute paths to entries (spec section 4.1: paths
resolve uniquely, child names are unique within a parent). -/
abbrev ResTree := List (String × Entry)

/-- Look up the entry bound to an absolute path. -/
def lookupE : ResTree → String → Option Entry
  | [], _ => none
  | (q, e) :: rest, p => if q = p then some e else lookupE rest p

/-- Bind an absolute path to an entry, replacing any previous binding. -/
def setEntry : ResTree → String → Entry → ResTree
  | [], p, e => [(p, e)]
  | (q, f) :: rest, p, e =>
      if q = p then (p, e) :: rest else (q, f) :: setEntry rest p e

/-- Remove the binding of an absolute path. -/
def removeEntry : ResTree → String → ResTree
  | [], _ => []
  | (q, f) :: rest, p => if q = p then rest else (q, f) :: removeEntry rest p

/-- `strncmp(s, pre, strlen(pre)) == 0`: `pre` is a prefix of `s`. -/
def startsWithStr (s pre : String) : Bool :=
  List.isPrefixOf pre.data s.data

/-- Resolve a path against a base entry's absolute path: an absolute path
resolves from the root, a relative one under the base (spec section 4.1). -/
def joinPath (base rel : String) : String :=
  if startsWithStr rel "/" then rel else String.append (String.append base "/") rel

/-- Modelled from the spec: `resTree_FindEntry` (missing `resTree.c`): look
up an entry at a path relative to a base entry, without creating anything
(spec section 4.1).  `base` is the base entry's absolute path; the root's
path is the empty string. -/
def resTree_FindEntry (t : ResTree) (base rel : String) : Option Entry :=
  lookupE t (joinPath base rel)

/-- Modelled from the spec: `resTree_FindEntryAtAbsolutePath` (missing
`resTree.c`): non-absolute paths are not found (spec section 4.1). -/
def resTree_FindEntryAtAbsolutePath (t : ResTree) (path : String) : Option Entry :=
  if startsWithStr path "/" then lookupE t path else none

/-- Modelled from the spec: `resTree_GetEntryType` (missing `resTree.c`). -/
def resTree_GetEntryType (e : Entry) : AdminEntryType :=
  e.entryType

/-- Modelled from the spec: `resTree_IsResource` (missing `resTree.c`):
every role except Namespace carries resource state (spec section 3.1). -/
def resTree_IsResource (e : Entry) : Bool :=
  if e.entryType = AdminEntryType.nspace then false else true

/-- Modelled from the spec: `resTree_GetDataType` (missing `resTree.c`). -/
def resTree_GetDataType (e : Entry) : IoDataType :=
  e.res.dataType

/-- Modelled from the spec: `resTree_GetUnits` (missing `resTree.c`). -/
def resTree_GetUnits (e : Entry) : String :=
  e.res.units

/-- Modelled from the spec: `resTree_HasDefault` (missing `resTree.c`). -/
def resTree_HasDefault (e : Entry) : Bool :=
  e.res.defaultValue.isSome

/-- Modelled from the spec: `resTree_SetDefault` (missing `resTree.c`):
record the default value of the entry at `path` (spec section 3.1; the
write-once policy is enforced by the callers through `resTree_HasDefault`). -/
def resTree_SetDefault (t : ResTree) (path : String) (sample : DataSample) : ResTree :=
  match lookupE t path with
  | none => t
  | some e => setEntry t path { e with res := { e.res with defaultValue := some sample } }

/-- Modelled from the spec: `resTree_GetCurrentValue` (missing `resTree.c`),
spec section 4.3 "Reading current value": the current value, or the default
(with its verbatim 0.0 timestamp) when no current value is present, or
nothing when neither exists. -/
def resTree_GetCurrentValue (e : Entry) : Option DataSample :=
  match e.res.currentValue with
  | some s => some s
  | none => e.res.defaultValue

/-- Modelled from the spec: `resTree_GetInput` (missing `resTree.c`), spec
sections 4.1 and 4.7: get or create an Input entry at `path`, promoting a
Namespace or Placeholder in place (preserving identity).  The embedded
callers (`io_CreateInput`) invoke it only after ruling out conflicting
roles, so the conflict cases of the spec's `getInput` are unreachable
here. -/
def resTree_GetInput (t : ResTree) (path : String) (dt : IoDataType) (u : String) : ResTree :=
  match lookupE t path with
  | none => setEntry t path ⟨AdminEntryType.input, ⟨dt, u, none, none, [], 0⟩⟩
  | some e => setEntry t path ⟨AdminEntryType.input, { e.res with dataType := dt, units := u }⟩

/-- Modelled from the spec: `resTree_GetOutput` (missing `resTree.c`),
symmetric to `resTree_GetInput`. -/
def resTree_GetOutput (t : ResTree) (path : String) (dt : IoDataType) (u : String) : ResTree :=
  match lookupE t path with
  | none => setEntry t path ⟨AdminEntryType.output, ⟨dt, u, none, none, [], 0⟩⟩
  | some e => setEntry t path ⟨AdminEntryType.output, { e.res with dataType := dt, units := u }⟩

/-- Oldest-first eviction down to the size cap (0 = no cap), spec
section 4.3 step 4. -/
def applyBufferCap (maxCount : Nat) (b : List DataSample) : List DataSample :=
  if maxCount = 0 then b
  else if b.length ≤ maxCount then b
  else b.drop (b.length - maxCount)

/-- Modelled from the spec: `resTree_Push` (missing `resTree.c`), the push
pipeline of spec section 4.3: normalise a zero timestamp to the wall clock,
gate Input/Output pushes on the entry's data type (a mismatch is a
caller-contract violation, modelled as `none`), commit the sample as current
value, and append it to an Observation's buffer with oldest-first eviction.
Handler fan-out and observation derivation mutate no state a claim reads
and are not modelled. -/
def resTree_Push (t : ResTree) (now : Rat) (path : String) (k : IoDataType)
    (s : DataSample) : Option ResTree :=
  match lookupE t path with
  | none => none
  | some e =>
    let s2 : DataSample :=
      ⟨if s.timestamp = Dbl.val 0 then Dbl.val now else s.timestamp, s.value⟩
    match e.entryType with
    | AdminEntryType.input =>
        if e.res.dataType = k then
          some (setEntry t path { e with res := { e.res with currentValue := some s2 } })
        else none
    | AdminEntryType.output =>
        if e.res.dataType = k then
          some (setEntry t path { e with res := { e.res with currentValue := some s2 } })
        else none
    | AdminEntryType.observation =>
        some (setEntry t path
          { e with res := { e.res with
              dataType := k,
              currentValue := some s2,
              buffer := applyBufferCap e.res.maxCount (e.res.buffer ++ [s2]) } })
    | AdminEntryType.placeholder =>
        some (setEntry t path
          { e with res := { e.res with dataType := k, currentValue := some s2 } })
    | AdminEntryType.nspace => none

/-- Thirty years in seconds, the pivot between relative and absolute
`startAfter` interpretations (queryService.c comments, spec section 4.4). -/
def thirtyYearsSeconds : Rat := 946080000

/-- Modelled from the spec: the sample filter of `resTree_ReadBufferJson`
(missing `resTree.c`), spec section 4.4: NaN selects the whole buffer; a
value at or above thirty years is an absolute epoch start time, below that a
span of seconds before now; samples with timestamp at or after the resolved
start time are kept, in buffer order. -/
def readBufferFilter (now : Rat) (startAfter : Dbl) (buffer : List DataSample) :
    List DataSample :=
  match startAfter with
  | Dbl.nan => buffer
  | Dbl.val q =>
    let start := if thirtyYearsSeconds ≤ q then q else now - q
    buffer.filter fun s =>
      match s.timestamp with
      | Dbl.nan => false
      | Dbl.val ts => decide (start ≤ ts)

/-- Modelled from the spec: `resTree_DeleteIO` (missing `resTree.c`), spec
section 3.3: destroy an Input/Output entry.  Demotion to Placeholder when
children remain is not modelled: the flat path map carries no child lists and
no claim deletes an entry that has children. -/
def resTree_DeleteIO (t : ResTree) (path : String) : ResTree :=
  removeEntry t path

/-- The state an IO/Query service call operates on: the resource tree, the
calling client's namespace entry path (the result of `GetClientNamespace`),
and the wall clock used to normalise zero timestamps. -/
structure IoState where
  tree : ResTree
  clientNs : String
  now : Rat
deriving DecidableEq

/-- Modelled from the spec: `GetClientNamespace` (ioService.c resolves it
through the IPC session and `le_appInfo_GetName`, which are outside the
sources): the calling client's `/app/<name>` namespace path, carried in the
state; session caching and identity-resolution failures are IPC concerns
with no effect on the tree (spec section 4.5). -/
def GetClientNamespace (st : IoState) : String :=
  st.clientNs

/-- `FindResource` (ioService.c): the entry at `path` within the client's
namespace, or nothing when it does not exist or is not an Input or an
Output. -/
def FindResource (st : IoState) (path : String) : Option Entry :=
  match lookupE st.tree (joinPath (GetClientNamespace st) path) with
  | none => none
  | some e =>
    if e.entryType = AdminEntryType.input ∨ e.entryType = AdminEntryType.output
    then some e else none

/-- `io_CreateInput` (ioService.c): create an Input, tolerating an existing
identical Input, rejecting a conflicting entry with `LE_DUPLICATE`, and
upgrading a Namespace or Placeholder in place. -/
def io_CreateInput (st : IoState) (path : String) (dataType : IoDataType)
    (units : String) : LeResult × IoState :=
  let p := joinPath (GetClientNamespace st) path
  match lookupE st.tree p with
  | some e =>
    match e.entryType with
    | AdminEntryType.input =>
        if resTree_GetDataType e ≠ dataType ∨ units ≠ resTree_GetUnits e then
          (LeResult.duplicate, st)
        else (LeResult.ok, st)
    | AdminEntryType.output => (LeResult.duplicate, st)
    | AdminEntryType.observation => (LeResult.duplicate, st)
    | AdminEntryType.nspace =>
        (LeResult.ok, { st with tree := resTree_GetInput st.tree p dataType units })
    | AdminEntryType.placeholder =>
        (LeResult.ok, { st with tree := resTree_GetInput st.tree p dataType units })
  | none => (LeResult.ok, { st with tree := resTree_GetInput st.tree p dataType units })

/-- `io_CreateOutput` (ioService.c), symmetric to `io_CreateInput`. -/
def io_CreateOutput (st : IoState) (path : String) (dataType : IoDataType)
    (units : String) : LeResult × IoState :=
  let p := joinPath (GetClientNamespace st) path
  match lookupE st.tree p with
  | some e =>
    match e.entryType with
    | AdminEntryType.output =>
        if resTree_GetDataType e ≠ dataType ∨ units ≠ resTree_GetUnits e then
          (LeResult.duplicate, st)
        else (LeResult.ok, st)
    | AdminEntryType.input => (LeResult.duplicate, st)
    | AdminEntryType.observation => (LeResult.duplicate, st)
    | AdminEntryType.nspace =>
        (LeResult.ok, { st with tree := resTree_GetOutput st.tree p dataType units })
    | AdminEntryType.placeholder =>
        (LeResult.ok, { st with tree := resTree_GetOutput st.tree p dataType units })
  | none => (LeResult.ok, { st with tree := resTree_GetOutput st.tree p dataType units })

/-- `io_DeleteResource` (ioService.c): delete the resource, doing nothing if
it does not exist (as an Input or Output). -/
def io_DeleteResource (st : IoState) (path : String) : IoState :=
  match FindResource st path with
  | none => st
  | some _ =>
      { st with tree := resTree_DeleteIO st.tree (joinPath (GetClientNamespace st) path) }

/-- Common body of the `io_Push*` functions (ioService.c): find the resource
(killing the client when it is absent), build the sample, and run it through
the push pipeline (whose type gate may also kill the client).  The Bool of
the result is the killed-client flag; a killed call leaves the state
untouched. -/
def IoPush (st : IoState) (path : String) (k : IoDataType) (sample : DataSample) :
    IoState × Bool :=
  match FindResource st path with
  | none => (st, true)
  | some _ =>
    match resTree_Push st.tree st.now (joinPath (GetClientNamespace st) path) k sample with
    | none => (st, true)
    | some t2 => ({ st with tree := t2 }, false)

/-- `io_PushTrigger` (ioService.c). -/
def io_PushTrigger (st : IoState) (path : String) (timestamp : Dbl) : IoState × Bool :=
  IoPush st path IoDataType.trigger (dataSample_CreateTrigger timestamp)

/-- `io_PushBoolean` (ioService.c). -/
def io_PushBoolean (st : IoState) (path : String) (timestamp : Dbl) (value : Bool) :
    IoState × Bool :=
  IoPush st path IoDataType.boolean (dataSample_CreateBoolean timestamp value)

/-- `io_PushNumeric` (ioService.c). -/
def io_PushNumeric (st : IoState) (path : String) (timestamp : Dbl) (value : Dbl) :
    IoState × Bool :=
  IoPush st path IoDataType.numeric (dataSample_CreateNumeric timestamp value)

/-- `io_PushString` (ioService.c). -/
def io_PushString (st : IoState) (path : String) (timestamp : Dbl) (value : String) :
    IoState × Bool :=
  IoPush st path IoDataType.str (dataSample_CreateString timestamp value)

/-- `io_PushJson` (ioService.c). -/
def io_PushJson (st : IoState) (path : String) (timestamp : Dbl) (value : String) :
    IoState × Bool :=
  IoPush st path IoDataType.json (dataSample_CreateJson timestamp value)

/-- Common body of the `io_SetXxxDefault` functions (ioService.c): find the
resource and check its type (killing the client on absence or mismatch), and
record the value as default only when none is set yet; the sample is built
with timestamp 0.0.  The Bool is the killed-client flag. -/
def IoSetDefault (st : IoState) (path : String) (dt : IoDataType) (v : SampleValue) :
    IoState × Bool :=
  match FindResource st path with
  | none => (st, true)
  | some e =>
    if resTree_GetDataType e ≠ dt then (st, true)
    else if resTree_HasDefault e then (st, false)
    else
      let t2 := resTree_SetDefault st.tree (joinPath (GetClientNamespace st) path) ⟨Dbl.val 0, v⟩
      ({ st with tree := t2 }, false)

/-- `io_SetBooleanDefault` (ioService.c). -/
def io_SetBooleanDefault (st : IoState) (path : String) (value : Bool) : IoState × Bool :=
  IoSetDefault st path IoDataType.boolean (SampleValue.boolVal value)

/-- `io_SetNumericDefault` (ioService.c). -/
def io_SetNumericDefault (st : IoState) (path : String) (value : Dbl) : IoState × Bool :=
  IoSetDefault st path IoDataType.numeric (SampleValue.numVal value)

/-- `io_SetStringDefault` (ioService.c). -/
def io_SetStringDefault (st : IoState) (path : String) (value : String) : IoState × Bool :=
  IoSetDefault st path IoDataType.str (SampleValue.strVal value)

/-- `io_SetJsonDefault` (ioService.c). -/
def io_SetJsonDefault (st : IoState) (path : String) (value : String) : IoState × Bool :=
  IoSetDefault st path IoDataType.json (SampleValue.jsonVal value)

/-- `GetCurrentValue` (ioService.c): current value with a type check that
kills the client on mismatch (the Bool of the result). -/
def GetCurrentValue (e : Entry) (dataType : IoDataType) : Option DataSample × Bool :=
  if resTree_GetDataType e ≠ dataType then (none, true)
  else (resTree_GetCurrentValue e, false)

/-- Outcome of a facade getter: the returned result code, the final contents
of the timestamp and value out-parameters (unchanged from the supplied
previous contents unless the C assigns them), and the killed-client flag. -/
structure GetOut (α : Type) where
  result : LeResult
  tsOut : Dbl
  valOut : α
  killed : Bool
deriving DecidableEq

/-- `io_GetTimestamp` (ioService.c). -/
def io_GetTimestamp (st : IoState) (path : String) (tsIn : Dbl) : LeResult × Dbl :=
  match FindResource st path with
  | none => (LeResult.notFound, tsIn)
  | some e =>
    match resTree_GetCurrentValue e with
    | none => (LeResult.unavailable, tsIn)
    | some s => (LeResult.ok, dataSample_GetTimestamp s)

/-- `io_GetBoolean` (ioService.c).  Note: the C never assigns
`*timestampPtr`, so `tsOut` is always the unchanged `tsIn`. -/
def io_GetBoolean (st : IoState) (path : String) (tsIn : Dbl) (vIn : Bool) : GetOut Bool :=
  match FindResource st path with
  | none => ⟨LeResult.notFound, tsIn, vIn, false⟩
  | some e =>
    match GetCurrentValue e IoDataType.boolean with
    | (none, k) => ⟨LeResult.unavailable, tsIn, vIn, k⟩
    | (some s, k) => ⟨LeResult.ok, tsIn, dataSample_GetBoolean s, k⟩

/-- `io_GetNumeric` (ioService.c).  Note: the C never assigns
`*timestampPtr`, so `tsOut` is always the unchanged `tsIn`. -/
def io_GetNumeric (st : IoState) (path : String) (tsIn : Dbl) (vIn : Dbl) : GetOut Dbl :=
  match FindResource st path with
  | none => ⟨LeResult.notFound, tsIn, vIn, false⟩
  | some e =>
    match GetCurrentValue e IoDataType.numeric with
    | (none, k) => ⟨LeResult.unavailable, tsIn, vIn, k⟩
    | (some s, k) => ⟨LeResult.ok, tsIn, dataSample_GetNumeric s, k⟩

/-- `io_GetString` (ioService.c).  Note: the C never assigns
`*timestampPtr`. -/
def io_GetString (st : IoState) (path : String) (tsIn : Dbl) (vIn : String)
    (size : Nat) : GetOut String :=
  match FindResource st path with
  | none => ⟨LeResult.notFound, tsIn, vIn, false⟩
  | some e =>
    match GetCurrentValue e IoDataType.str with
    | (none, k) => ⟨LeResult.unavailable, tsIn, vIn, k⟩
    | (some s, k) =>
      let c := le_utf8_Copy (dataSample_GetString s) size vIn
      ⟨c.1, tsIn, c.2, k⟩

/-- `io_GetJson` (ioService.c).  Note: the C never assigns
`*timestampPtr`. -/
def io_GetJson (st : IoState) (path : String) (tsIn : Dbl) (vIn : String)
    (size : Nat) : GetOut String :=
  match FindResource st path with
  | none => ⟨LeResult.notFound, tsIn, vIn, false⟩
  | some e =>
    match resTree_GetCurrentValue e with
    | none => ⟨LeResult.unavailable, tsIn, vIn, false⟩
    | some s =>
      let c := dataSample_ConvertToJson s (resTree_GetDataType e) size vIn
      ⟨c.1, tsIn, c.2, false⟩

/-- The entry-resolution part of `FindObservation` (queryService.c): a path
beginning with `/obs/` is looked up from the root; any other absolute path
resolves to nothing; a relative path is looked up under the `obs` namespace,
which must itself exist. -/
def resolveObsEntry (t : ResTree) (path : String) : Option Entry :=
  if startsWithStr path "/obs/" then resTree_FindEntry t "" path
  else if startsWithStr path "/" then none
  else
    match resTree_FindEntry t "" "obs" with
    | none => none
    | some _ => resTree_FindEntry t "/obs" path

/-- `FindObservation` (queryService.c): the resolved entry, provided its role
is Observation. -/
def FindObservation (t : ResTree) (path : String) : Option Entry :=
  match resolveObsEntry t path with
  | none => none
  | some e =>
    if resTree_GetEntryType e = AdminEntryType.observation then some e else none

/-- Outcome of `query_ReadBufferJson`: the Observation was not found; or the
client was killed (negative `startAfter`) with nothing written; or a read of
the listed samples was started. -/
inductive ReadBufferOutcome
  | notFound
  | killedClient
  | read (samples : List DataSample)
deriving DecidableEq

/-- `query_ReadBufferJson` (queryService.c): resolve the Observation, kill
the client on a negative `startAfter` (NaN compares false and passes), and
otherwise hand the buffer to `resTree_ReadBufferJson`, whose sample filter
is `readBufferFilter`. -/
def query_ReadBufferJson (st : IoState) (obsPath : String) (startAfter : Dbl) :
    ReadBufferOutcome :=
  match FindObservation st.tree obsPath with
  | none => ReadBufferOutcome.notFound
  | some e =>
    if Dbl.lt startAfter (Dbl.val 0) then ReadBufferOutcome.killedClient
    else ReadBufferOutcome.read (readBufferFilter st.now startAfter e.res.buffer)

/-- `query_GetMin` (queryService.c): resolve the Observation and return NaN;
the aggregate itself is not implemented in the source (both branches of the
C return `NAN`). -/
def query_GetMin (st : IoState) (obsPath : String) (startTime : Dbl) : Dbl :=
  match FindObservation st.tree obsPath with
  | none => Dbl.nan
  | some _ => Dbl.nan

/-- `query_GetMax` (queryService.c): same unconditional-NaN shape as
`query_GetMin`. -/
def query_GetMax (st : IoState) (obsPath : String) (startTime : Dbl) : Dbl :=
  match FindObservation st.tree obsPath with
  | none => Dbl.nan
  | some _ => Dbl.nan

/-- `query_GetMean` (queryService.c): same unconditional-NaN shape as
`query_GetMin`. -/
def query_GetMean (st : IoState) (obsPath : String) (startTime : Dbl) : Dbl :=
  match FindObservation st.tree obsPath with
  | none => Dbl.nan
  | some _ => Dbl.nan

/-- `query_GetStdDev` (queryService.c): same unconditional-NaN shape as
`query_GetMin`. -/
def query_GetStdDev (st : IoState) (obsPath : String) (startTime : Dbl) : Dbl :=
  match FindObservation st.tree obsPath with
  | none => Dbl.nan
  | some _ => Dbl.nan

/-- `query_GetDataType` (queryService.c). -/
def query_GetDataType (st : IoState) (path : String) : LeResult × Option IoDataType :=
  match resTree_FindEntryAtAbsolutePath st.tree path with
  | none => (LeResult.notFound, none)
  | some e =>
    if resTree_IsResource e = false then (LeResult.unsupported, none)
    else (LeResult.ok, some (resTree_GetDataType e))

/-- `query_GetBoolean` (queryService.c): unlike the IO facade, a wrong-kind
fetch returns `LE_FORMAT_ERROR` (after the unavailability check) and the
out-parameters keep their previous contents. -/
def query_GetBoolean (st : IoState) (path : String) (tsIn : Dbl) (vIn : Bool) :
    GetOut Bool :=
  match resTree_FindEntryAtAbsolutePath st.tree path with
  | none => ⟨LeResult.notFound, tsIn, vIn, false⟩
  | some e =>
    if resTree_IsResource e = false then ⟨LeResult.unsupported, tsIn, vIn, false⟩
    else
      match resTree_GetCurrentValue e with
      | none => ⟨LeResult.unavailable, tsIn, vIn, false⟩
      | some s =>
        if resTree_GetDataType e ≠ IoDataType.boolean then
          ⟨LeResult.formatError, tsIn, vIn, false⟩
        else ⟨LeResult.ok, dataSample_GetTimestamp s, dataSample_GetBoolean s, false⟩

/-- `query_GetNumeric` (queryService.c). -/
def query_GetNumeric (st : IoState) (path : String) (tsIn : Dbl) (vIn : Dbl) :
    GetOut Dbl :=
  match resTree_FindEntryAtAbsolutePath st.tree path with
  | none => ⟨LeResult.notFound, tsIn, vIn, false⟩
  | some e =>
    if resTree_IsResource e = false then ⟨LeResult.unsupported, tsIn, vIn, false⟩
    else
      match resTree_GetCurrentValue e with
      | none => ⟨LeResult.unavailable, tsIn, vIn, false⟩
      | some s =>
        if resTree_GetDataType e ≠ IoDataType.numeric then
          ⟨LeResult.formatError, tsIn, vIn, false⟩
        else ⟨LeResult.ok, dataSample_GetTimestamp s, dataSample_GetNumeric s, false⟩

/-- `query_GetString` (queryService.c). -/
def query_GetString (st : IoState) (path : String) (tsIn : Dbl) (vIn : String)
    (size : Nat) : GetOut String :=
  match resTree_FindEntryAtAbsolutePath st.tree path with
  | none => ⟨LeResult.notFound, tsIn, vIn, false⟩
  | some e =>
    if resTree_IsResource e = false then ⟨LeResult.unsupported, tsIn, vIn, false⟩
    else
      match resTree_GetCurrentValue e with
      | none => ⟨LeResult.unavailable, tsIn, vIn, false⟩
      | some s =>
        if resTree_GetDataType e ≠ IoDataType.str then
          ⟨LeResult.formatError, tsIn, vIn, false⟩
        else
          let c := le_utf8_Copy (dataSample_GetString s) size vIn
          ⟨c.1, dataSample_GetTimestamp s, c.2, false⟩

/-- `query_GetJson` (queryService.c): writes the timestamp, then copies the
stored JSON text for a Json resource and the JSON projection of the value for
every other data type; there is no format-error branch. -/
def query_GetJson (st : IoState) (path : String) (tsIn : Dbl) (vIn : String)
    (size : Nat) : GetOut String :=
  match resTree_FindEntryAtAbsolutePath st.tree path with
  | none => ⟨LeResult.notFound, tsIn, vIn, false⟩
  | some e =>
    if resTree_IsResource e = false then ⟨LeResult.unsupported, tsIn, vIn, false⟩
    else
      match resTree_GetCurrentValue e with
      | none => ⟨LeResult.unavailable, tsIn, vIn, false⟩
      | some s =>
        let c :=
          if resTree_GetDataType e = IoDataType.json then
            le_utf8_Copy (dataSample_GetJson s) size vIn
          else dataSample_ConvertToJson s (resTree_GetDataType e) size vIn
        ⟨c.1, dataSample_GetTimestamp s, c.2, false⟩

/-- A fresh binding is found by a lookup at its own path. -/
theorem lookupE_setEntry_self (t : ResTree) (p : String) (e : Entry) :
    lookupE (setEntry t p e) p = some e := by
  induction t with
  | nil => simp [setEntry, lookupE]
  | cons hd tl ih =>
    obtain ⟨q, f⟩ := hd
    by_cases h : q = p
    · simp [setEntry, h, lookupE]
    · simp [setEntry, h, lookupE, ih]

/-- `le_utf8_Copy` only ever reports success or overflow. -/
theorem le_utf8_Copy_result (src : String) (size : Nat) (destIn : String) :
    (le_utf8_Copy src size destIn).1 = LeResult.ok ∨
      (le_utf8_Copy src size destIn).1 = LeResult.overflow := by
  unfold le_utf8_Copy
  by_cases h0 : size = 0
  · simp [h0]
  · by_cases h1 : src.length < size
    · simp [h0, h1]
    · simp [h0, h1]

/-- An entry that is not an Input or an Output is invisible to
`FindResource`. -/
theorem FindResource_none_of_role (st : IoState) (path : String) (e : Entry)
    (hfind : lookupE st.tree (joinPath st.clientNs path) = some e)
    (hrole : e.entryType ≠ AdminEntryType.input ∧ e.entryType ≠ AdminEntryType.output) :
    FindResource st path = none := by
  unfold FindResource GetClientNamespace
  rw [hfind]
  simp [hrole.1, hrole.2]

/-- Sample (t = 1, v = 10) of the aggregate scenario. -/
def c1Sample1 : DataSample := ⟨Dbl.val 1, SampleValue.numVal (Dbl.val 10)⟩

/-- Sample (t = 2, v = 20) of the aggregate scenario. -/
def c1Sample2 : DataSample := ⟨Dbl.val 2, SampleValue.numVal (Dbl.val 20)⟩

/-- Sample (t = 3, v = 30) of the aggregate scenario. -/
def c1Sample3 : DataSample := ⟨Dbl.val 3, SampleValue.numVal (Dbl.val 30)⟩

/-- An Observation whose buffer holds the three numeric samples. -/
def c1Obs : Entry :=
  ⟨AdminEntryType.observation,
    ⟨IoDataType.numeric, "", some c1Sample3, none, [c1Sample1, c1Sample2, c1Sample3], 0⟩⟩

/-- A tree holding that Observation at `/obs/o`. -/
def c1State : IoState := ⟨[("/obs/o", c1Obs)], "/app/test", 0⟩

/-- C1: the claim says the aggregate queries compute min / max / mean /
population stddev over the in-range numeric samples whenever at least one
exists.  On an Observation whose buffer holds the numeric samples
(1,10), (2,20), (3,30) — all inside the resolved window of
`startTime = 0` — every aggregate of the source nevertheless returns NaN:
both branches of the C functions return `NAN`, so the aggregates are
unimplemented stubs and the claim describes intended, not actual,
behaviour. -/
theorem c1_aggregates_are_nan_stubs :
    FindObservation c1State.tree "/obs/o" = some c1Obs ∧
    readBufferFilter c1State.now (Dbl.val 0) c1Obs.res.buffer =
      [c1Sample1, c1Sample2, c1Sample3] ∧
    query_GetMin c1State "/obs/o" (Dbl.val 0) = Dbl.nan ∧
    query_GetMax c1State "/obs/o" (Dbl.val 0) = Dbl.nan ∧
    query_GetMean c1State "/obs/o" (Dbl.val 0) = Dbl.nan ∧
    query_GetStdDev c1State "/obs/o" (Dbl.val 0) = Dbl.nan := by
  refine ⟨by decide, ?_, by decide, by decide, by decide, by decide⟩
  with_unfolding_all rfl

/-- A numeric Input with no value yet, at `/app/test/n`. -/
def c2Entry : Entry := ⟨AdminEntryType.input, ⟨IoDataType.numeric, "degC", none, none, [], 0⟩⟩

/-- The state around that Input. -/
def c2State : IoState := ⟨[("/app/test/n", c2Entry)], "/app/test", 1000⟩

/-- C2: the claim says that after `io_PushNumeric(path, ts, value)` succeeds,
`io_GetNumeric` writes both the value and `ts` to its out-parameters.  After
pushing (ts = 5, v = 21) the get returns Ok and the value 21, but its
timestamp out-parameter still holds the caller's previous content (the
sentinel 99): the C of `io_GetNumeric` (and of the Boolean/String/Json
getters) never assigns `*timestampPtr`, even though the stored timestamp is
5, as `io_GetTimestamp` shows. -/
theorem c2_get_does_not_write_timestamp :
    (io_PushNumeric c2State "n" (Dbl.val 5) (Dbl.val 21)).2 = false ∧
    io_GetNumeric (io_PushNumeric c2State "n" (Dbl.val 5) (Dbl.val 21)).1 "n"
        (Dbl.val 99) Dbl.nan =
      ⟨LeResult.ok, Dbl.val 99, Dbl.val 21, false⟩ ∧
    io_GetTimestamp (io_PushNumeric c2State "n" (Dbl.val 5) (Dbl.val 21)).1 "n"
        (Dbl.val 99) =
      (LeResult.ok, Dbl.val 5) := by
  decide

/-- C3: on a path whose entry already has role Input, Output, or
Observation, `io_CreateInput` (resp. `io_CreateOutput`) with a conflicting
role, or with the same role but a different (dataType, units) pair, returns
Duplicate and leaves the whole state — in particular the entry's role, data
type, units, current value, and default — unchanged. -/
theorem c3_conflicting_creation_returns_duplicate
    (st : IoState) (path : String) (e : Entry) (dt : IoDataType) (u : String)
    (hfind : lookupE st.tree (joinPath st.clientNs path) = some e)
    (hrole : e.entryType = AdminEntryType.input ∨ e.entryType = AdminEntryType.output ∨
      e.entryType = AdminEntryType.observation) :
    ((e.entryType ≠ AdminEntryType.input ∨ e.res.dataType ≠ dt ∨ u ≠ e.res.units) →
      io_CreateInput st path dt u = (LeResult.duplicate, st)) ∧
    ((e.entryType ≠ AdminEntryType.output ∨ e.res.dataType ≠ dt ∨ u ≠ e.res.units) →
      io_CreateOutput st path dt u = (LeResult.duplicate, st)) := by
  constructor
  · intro hconf
    rcases hrole with h | h | h
    · have hmm : e.res.dataType ≠ dt ∨ u ≠ e.res.units := by
        rcases hconf with hc | hc | hc
        · exact absurd h hc
        · exact Or.inl hc
        · exact Or.inr hc
      simp only [io_CreateInput, GetClientNamespace, hfind, h, resTree_GetDataType,
        resTree_GetUnits]
      rw [if_pos hmm]
    · simp only [io_CreateInput, GetClientNamespace, hfind, h]
    · simp only [io_CreateInput, GetClientNamespace, hfind, h]
  · intro hconf
    rcases hrole with h | h | h
    · simp only [io_CreateOutput, GetClientNamespace, hfind, h]
    · have hmm : e.res.dataType ≠ dt ∨ u ≠ e.res.units := by
        rcases hconf with hc | hc | hc
        · exact absurd h hc
        · exact Or.inl hc
        · exact Or.inr hc
      simp only [io_CreateOutput, GetClientNamespace, hfind, h, resTree_GetDataType,
        resTree_GetUnits]
      rw [if_pos hmm]
    · simp only [io_CreateOutput, GetClientNamespace, hfind, h]

/-- An existing Observation entry at the client path `/app/test/x`. -/
def c3Entry : Entry := ⟨AdminEntryType.observation, ⟨IoDataType.numeric, "m", none, none, [], 0⟩⟩

/-- The state around that entry. -/
def c3State : IoState := ⟨[("/app/test/x", c3Entry)], "/app/test", 0⟩

/-- C3 witness: both creation calls on the Observation path return Duplicate
and change nothing. -/
theorem c3_witness :
    io_CreateInput c3State "x" IoDataType.numeric "m" = (LeResult.duplicate, c3State) ∧
    io_CreateOutput c3State "x" IoDataType.numeric "m" = (LeResult.duplicate, c3State) := by
  have h := c3_conflicting_creation_returns_duplicate c3State "x" c3Entry
    IoDataType.numeric "m" (by decide) (by decide)
  exact ⟨h.1 (by decide), h.2 (by decide)⟩

/-- Sample (t = 1) of the buffer-read scenario. -/
def c4Sample1 : DataSample := ⟨Dbl.val 1, SampleValue.numVal (Dbl.val 10)⟩

/-- Sample (t = 2) of the buffer-read scenario. -/
def c4Sample2 : DataSample := ⟨Dbl.val 2, SampleValue.numVal (Dbl.val 20)⟩

/-- Sample (t = 3) of the buffer-read scenario. -/
def c4Sample3 : DataSample := ⟨Dbl.val 3, SampleValue.numVal (Dbl.val 30)⟩

/-- An Observation at `/obs/o` holding the three samples. -/
def c4Obs : Entry :=
  ⟨AdminEntryType.observation,
    ⟨IoDataType.numeric, "", some c4Sample3, none, [c4Sample1, c4Sample2, c4Sample3], 0⟩⟩

/-- The state around that Observation, with wall clock 0. -/
def c4State : IoState := ⟨[("/obs/o", c4Obs)], "/app/test", 0⟩

/-- C4 counterexample: the claim says a `startAfter` of zero (like a negative
one) is rejected as a caller-contract violation with no buffer data written.
On an existing Observation the source rejects only strictly negative values
(`if (startAfter < 0)`): with `startAfter = 0` the client is not killed and a
read is started, here returning the whole buffer. -/
theorem c4_counterexample :
    query_ReadBufferJson c4State "/obs/o" (Dbl.val 0) =
      ReadBufferOutcome.read [c4Sample1, c4Sample2, c4Sample3] ∧
    query_ReadBufferJson c4State "/obs/o" (Dbl.val 0) ≠ ReadBufferOutcome.killedClient := by
  have h : query_ReadBufferJson c4State "/obs/o" (Dbl.val 0) =
      ReadBufferOutcome.read [c4Sample1, c4Sample2, c4Sample3] := by
    with_unfolding_all rfl
  refine ⟨h, ?_⟩
  rw [h]
  intro hc
  exact ReadBufferOutcome.noConfusion hc

/-- C4 (amended): for every existing Observation, a strictly negative
`startAfter` is rejected as a caller-contract violation — the client session
is terminated and no buffer data is written — while `startAfter == 0` is
accepted like any non-negative value; for `startAfter == NaN` (which compares
false against 0) the whole buffer is read. -/
theorem c4_negative_rejected_nan_reads_all
    (st : IoState) (p : String) (e : Entry) (sa : Dbl)
    (hobs : FindObservation st.tree p = some e) :
    (Dbl.lt sa (Dbl.val 0) = true →
      query_ReadBufferJson st p sa = ReadBufferOutcome.killedClient) ∧
    (sa = Dbl.nan →
      query_ReadBufferJson st p sa = ReadBufferOutcome.read e.res.buffer) := by
  constructor
  · intro hneg
    simp [query_ReadBufferJson, hobs, hneg]
  · intro hnan
    subst hnan
    simp [query_ReadBufferJson, hobs, Dbl.lt, readBufferFilter]

/-- C4 witness: on the concrete Observation, `startAfter = -1` kills the
client and `startAfter = NaN` reads the whole buffer. -/
theorem c4_witness :
    query_ReadBufferJson c4State "/obs/o" (Dbl.val (-1)) = ReadBufferOutcome.killedClient ∧
    query_ReadBufferJson c4State "/obs/o" Dbl.nan =
      ReadBufferOutcome.read [c4Sample1, c4Sample2, c4Sample3] := by
  have h1 := c4_negative_rejected_nan_reads_all c4State "/obs/o" c4Obs (Dbl.val (-1))
    (by decide)
  have h2 := c4_negative_rejected_nan_reads_all c4State "/obs/o" c4Obs Dbl.nan (by decide)
  refine ⟨h1.1 (by decide), ?_⟩
  rw [h2.2 rfl]
  decide

/-- A default setter on a resource that already has a default is a complete
no-op. -/
theorem IoSetDefault_noop (st : IoState) (path : String) (e : Entry) (dt : IoDataType)
    (v : SampleValue)
    (hfr : FindResource st path = some e)
    (hdt : e.res.dataType = dt)
    (hdef : resTree_HasDefault e = true) :
    IoSetDefault st path dt v = (st, false) := by
  unfold IoSetDefault
  rw [hfr]
  simp [resTree_GetDataType, hdt, hdef]

/-- The entry with a default value recorded (the update written by
`resTree_SetDefault`). -/
def withDefault (e : Entry) (s : DataSample) : Entry :=
  { e with res := { e.res with defaultValue := some s } }

/-- The write-once behaviour of the shared default-setter body: on an Input
or Output of the matching type with no default and no current value, the
first call records the value with timestamp 0.0, the second call is a
complete no-op, and reading the current value yields the recorded default
verbatim. -/
theorem IoSetDefault_write_once
    (st : IoState) (path : String) (e : Entry) (dt : IoDataType) (v1 v2 : SampleValue)
    (hfind : lookupE st.tree (joinPath st.clientNs path) = some e)
    (hrole : e.entryType = AdminEntryType.input ∨ e.entryType = AdminEntryType.output)
    (hdt : e.res.dataType = dt)
    (hnodef : e.res.defaultValue = none)
    (hnocur : e.res.currentValue = none) :
    IoSetDefault (IoSetDefault st path dt v1).1 path dt v2 =
      ((IoSetDefault st path dt v1).1, false) ∧
    lookupE (IoSetDefault st path dt v1).1.tree (joinPath st.clientNs path) =
      some (withDefault e ⟨Dbl.val 0, v1⟩) ∧
    resTree_GetCurrentValue (withDefault e ⟨Dbl.val 0, v1⟩) = some ⟨Dbl.val 0, v1⟩ := by
  have hfr : FindResource st path = some e := by
    unfold FindResource GetClientNamespace
    rw [hfind]
    rcases hrole with h | h <;> simp [h]
  have hs1 : (IoSetDefault st path dt v1).1 =
      { st with tree := setEntry st.tree (joinPath st.clientNs path)
                          (withDefault e ⟨Dbl.val 0, v1⟩) } := by
    unfold IoSetDefault
    rw [hfr]
    simp [resTree_GetDataType, hdt, resTree_HasDefault, hnodef, resTree_SetDefault,
      GetClientNamespace, hfind, withDefault]
  have hlook : lookupE (IoSetDefault st path dt v1).1.tree (joinPath st.clientNs path) =
      some (withDefault e ⟨Dbl.val 0, v1⟩) := by
    rw [hs1]
    exact lookupE_setEntry_self _ _ _
  refine ⟨?_, hlook, ?_⟩
  · have hfr1 : FindResource (IoSetDefault st path dt v1).1 path =
        some (withDefault e ⟨Dbl.val 0, v1⟩) := by
      rw [hs1]
      unfold FindResource GetClientNamespace
      simp only
      rw [lookupE_setEntry_self]
      rcases hrole with h | h <;> simp [h, withDefault]
    exact IoSetDefault_noop _ _ _ _ _ hfr1 (by simp [withDefault, hdt])
      (by simp [withDefault, resTree_HasDefault])
  · simp [resTree_GetCurrentValue, hnocur, withDefault]

/-- C5: on an Input or Output of each concrete type with no default and no
pushed value, setting the default twice leaves the first value as the
default (the second call is a complete no-op), and reading the current value
yields the first value with timestamp 0.0; stated for the Boolean, numeric,
string and JSON setters. -/
theorem c5_default_setters_write_once
    (st : IoState) (path : String) (e : Entry)
    (hfind : lookupE st.tree (joinPath st.clientNs path) = some e)
    (hrole : e.entryType = AdminEntryType.input ∨ e.entryType = AdminEntryType.output)
    (hnodef : e.res.defaultValue = none)
    (hnocur : e.res.currentValue = none) :
    (∀ v1 v2 : Bool, e.res.dataType = IoDataType.boolean →
      io_SetBooleanDefault (io_SetBooleanDefault st path v1).1 path v2 =
        ((io_SetBooleanDefault st path v1).1, false) ∧
      lookupE (io_SetBooleanDefault st path v1).1.tree (joinPath st.clientNs path) =
        some (withDefault e ⟨Dbl.val 0, SampleValue.boolVal v1⟩) ∧
      resTree_GetCurrentValue (withDefault e ⟨Dbl.val 0, SampleValue.boolVal v1⟩) =
        some ⟨Dbl.val 0, SampleValue.boolVal v1⟩) ∧
    (∀ v1 v2 : Dbl, e.res.dataType = IoDataType.numeric →
      io_SetNumericDefault (io_SetNumericDefault st path v1).1 path v2 =
        ((io_SetNumericDefault st path v1).1, false) ∧
      lookupE (io_SetNumericDefault st path v1).1.tree (joinPath st.clientNs path) =
        some (withDefault e ⟨Dbl.val 0, SampleValue.numVal v1⟩) ∧
      resTree_GetCurrentValue (withDefault e ⟨Dbl.val 0, SampleValue.numVal v1⟩) =
        some ⟨Dbl.val 0, SampleValue.numVal v1⟩) ∧
    (∀ v1 v2 : String, e.res.dataType = IoDataType.str →
      io_SetStringDefault (io_SetStringDefault st path v1).1 path v2 =
        ((io_SetStringDefault st path v1).1, false) ∧
      lookupE (io_SetStringDefault st path v1).1.tree (joinPath st.clientNs path) =
        some (withDefault e ⟨Dbl.val 0, SampleValue.strVal v1⟩) ∧
      resTree_GetCurrentValue (withDefault e ⟨Dbl.val 0, SampleValue.strVal v1⟩) =
        some ⟨Dbl.val 0, SampleValue.strVal v1⟩) ∧
    (∀ v1 v2 : String, e.res.dataType = IoDataType.json →
      io_SetJsonDefault (io_SetJsonDefault st path v1).1 path v2 =
        ((io_SetJsonDefault st path v1).1, false) ∧
      lookupE (io_SetJsonDefault st path v1).1.tree (joinPath st.clientNs path) =
        some (withDefault e ⟨Dbl.val 0, SampleValue.jsonVal v1⟩) ∧
      resTree_GetCurrentValue (withDefault e ⟨Dbl.val 0, SampleValue.jsonVal v1⟩) =
        some ⟨Dbl.val 0, SampleValue.jsonVal v1⟩) := by
  refine ⟨?_, ?_, ?_, ?_⟩ <;> intro v1 v2 hdt <;>
    exact IoSetDefault_write_once st path e _ _ _ hfind hrole hdt hnodef hnocur

/-- A Boolean Output with no default and no value, for the C5 witness. -/
def c5Entry : Entry := ⟨AdminEntryType.output, ⟨IoDataType.boolean, "", none, none, [], 0⟩⟩

/-- The state around that Output. -/
def c5State : IoState := ⟨[("/app/test/y", c5Entry)], "/app/test", 7⟩

/-- C5 witness: on the Boolean Output, setting `true` then `false` keeps
`true` (timestamp 0.0) as the default and as the read-back current value. -/
theorem c5_witness :
    io_SetBooleanDefault (io_SetBooleanDefault c5State "y" true).1 "y" false =
      ((io_SetBooleanDefault c5State "y" true).1, false) ∧
    resTree_GetCurrentValue (withDefault c5Entry ⟨Dbl.val 0, SampleValue.boolVal true⟩) =
      some ⟨Dbl.val 0, SampleValue.boolVal true⟩ := by
  have h := c5_default_setters_write_once c5State "y" c5Entry (by decide)
    (Or.inr (by decide)) (by decide) (by decide)
  have hb := h.1 true false (by decide)
  exact ⟨hb.1, hb.2.2⟩

/-- C6: on a resource with a current value whose data type differs from the
requested kind, the query facade getters return FormatError and leave the
out-parameters untouched, while the client IO facade getters terminate the
client session instead of returning FormatError (the post-kill return code is
Unavailable, from the NULL sample of the killed type check). -/
theorem c6_wrong_kind_query_vs_io
    (st : IoState) (rel p : String) (e : Entry) (s : DataSample)
    (tsIn : Dbl) (bIn : Bool) (nIn : Dbl) (sIn : String) (size : Nat)
    (hjoin : joinPath st.clientNs rel = p)
    (habs : startsWithStr p "/" = true)
    (hfind : lookupE st.tree p = some e)
    (hrole : e.entryType = AdminEntryType.input ∨ e.entryType = AdminEntryType.output)
    (hcur : resTree_GetCurrentValue e = some s) :
    (e.res.dataType ≠ IoDataType.boolean →
      query_GetBoolean st p tsIn bIn = ⟨LeResult.formatError, tsIn, bIn, false⟩ ∧
      io_GetBoolean st rel tsIn bIn = ⟨LeResult.unavailable, tsIn, bIn, true⟩) ∧
    (e.res.dataType ≠ IoDataType.numeric →
      query_GetNumeric st p tsIn nIn = ⟨LeResult.formatError, tsIn, nIn, false⟩ ∧
      io_GetNumeric st rel tsIn nIn = ⟨LeResult.unavailable, tsIn, nIn, true⟩) ∧
    (e.res.dataType ≠ IoDataType.str →
      query_GetString st p tsIn sIn size = ⟨LeResult.formatError, tsIn, sIn, false⟩ ∧
      io_GetString st rel tsIn sIn size = ⟨LeResult.unavailable, tsIn, sIn, true⟩) := by
  have hfr : FindResource st rel = some e := by
    unfold FindResource GetClientNamespace
    rw [hjoin, hfind]
    rcases hrole with h | h <;> simp [h]
  have habsfind : resTree_FindEntryAtAbsolutePath st.tree p = some e := by
    unfold resTree_FindEntryAtAbsolutePath
    simp [habs, hfind]
  have hnotns : resTree_IsResource e = true := by
    unfold resTree_IsResource
    rcases hrole with h | h <;> simp [h]
  refine ⟨?_, ?_, ?_⟩ <;> intro hdt <;> constructor
  · simp [query_GetBoolean, habsfind, hnotns, hcur, resTree_GetDataType, hdt]
  · simp [io_GetBoolean, hfr, GetCurrentValue, resTree_GetDataType, hdt]
  · simp [query_GetNumeric, habsfind, hnotns, hcur, resTree_GetDataType, hdt]
  · simp [io_GetNumeric, hfr, GetCurrentValue, resTree_GetDataType, hdt]
  · simp [query_GetString, habsfind, hnotns, hcur, resTree_GetDataType, hdt]
  · simp [io_GetString, hfr, GetCurrentValue, resTree_GetDataType, hdt]

/-- A numeric Input holding a current value, for the C6 witness. -/
def c6Entry : Entry :=
  ⟨AdminEntryType.input,
    ⟨IoDataType.numeric, "degC", some ⟨Dbl.val 4, SampleValue.numVal (Dbl.val 21)⟩, none, [], 0⟩⟩

/-- The state around that Input. -/
def c6State : IoState := ⟨[("/app/test/t", c6Entry)], "/app/test", 0⟩

/-- C6 witness: fetching the numeric Input as Boolean yields FormatError with
untouched out-parameters through the query facade, and a killed client
through the IO facade. -/
theorem c6_witness :
    query_GetBoolean c6State "/app/test/t" (Dbl.val 8) false =
      ⟨LeResult.formatError, Dbl.val 8, false, false⟩ ∧
    io_GetBoolean c6State "t" (Dbl.val 8) false =
      ⟨LeResult.unavailable, Dbl.val 8, false, true⟩ := by
  have h := c6_wrong_kind_query_vs_io c6State "t" "/app/test/t" c6Entry
    ⟨Dbl.val 4, SampleValue.numVal (Dbl.val 21)⟩ (Dbl.val 8) false Dbl.nan "" 5
    (by decide) (by decide) (by decide) (Or.inl (by decide)) (by decide)
  exact h.1 (by decide)

/-- A repeated `io_CreateInput` on a path that already holds a matching
Input succeeds and is a complete no-op. -/
theorem io_CreateInput_matching_noop (st : IoState) (path : String) (r : Resource)
    (dt : IoDataType) (u : String)
    (hfind : lookupE st.tree (joinPath st.clientNs path) =
      some ⟨AdminEntryType.input, r⟩)
    (hdt : r.dataType = dt) (hu : r.units = u) :
    io_CreateInput st path dt u = (LeResult.ok, st) := by
  simp only [io_CreateInput, GetClientNamespace, hfind]
  simp [resTree_GetDataType, resTree_GetUnits, hdt, hu]

/-- `io_CreateInput` on an unbound path creates the Input. -/
theorem io_CreateInput_creates (st : IoState) (path : String) (dt : IoDataType)
    (u : String)
    (hl : lookupE st.tree (joinPath st.clientNs path) = none) :
    io_CreateInput st path dt u =
      (LeResult.ok, { st with tree := resTree_GetInput st.tree (joinPath st.clientNs path) dt u }) := by
  simp only [io_CreateInput, GetClientNamespace, hl]

/-- `io_CreateInput` on a Namespace or Placeholder promotes it in place. -/
theorem io_CreateInput_promotes (st : IoState) (path : String) (dt : IoDataType)
    (u : String) (e : Entry)
    (hl : lookupE st.tree (joinPath st.clientNs path) = some e)
    (he : e.entryType = AdminEntryType.nspace ∨ e.entryType = AdminEntryType.placeholder) :
    io_CreateInput st path dt u =
      (LeResult.ok, { st with tree := resTree_GetInput st.tree (joinPath st.clientNs path) dt u }) := by
  simp only [io_CreateInput, GetClientNamespace, hl]
  rcases he with h | h <;> simp [h]

/-- An Output at the client path `/app/test/x`, for the C7 counterexample. -/
def c7Entry : Entry := ⟨AdminEntryType.output, ⟨IoDataType.numeric, "m", none, none, [], 0⟩⟩

/-- The state around that Output. -/
def c7State : IoState := ⟨[("/app/test/x", c7Entry)], "/app/test", 0⟩

/-- C7 counterexample: the claim quantifies over every path, data type and
units; on a path that already holds an Output, `io_CreateInput` returns
Duplicate — both times — rather than Ok. -/
theorem c7_counterexample :
    (io_CreateInput c7State "x" IoDataType.numeric "m").1 = LeResult.duplicate ∧
    (io_CreateInput (io_CreateInput c7State "x" IoDataType.numeric "m").2 "x"
        IoDataType.numeric "m").1 = LeResult.duplicate ∧
    LeResult.duplicate ≠ LeResult.ok := by
  decide

/-- C7 (amended): whenever the first `io_CreateInput(path, dt, u)` returns
Ok — as on a fresh path, a Namespace or Placeholder, or a matching Input,
though not on a conflicting entry — the path afterwards holds an Input with
exactly (dt, u), and the immediately repeated identical call returns Ok
again and changes nothing at all, resolving to that same entry. -/
theorem c7_create_input_idempotent_on_ok
    (st : IoState) (path : String) (dt : IoDataType) (u : String)
    (h : (io_CreateInput st path dt u).1 = LeResult.ok) :
    (∃ r : Resource,
      lookupE (io_CreateInput st path dt u).2.tree (joinPath st.clientNs path) =
        some ⟨AdminEntryType.input, r⟩ ∧ r.dataType = dt ∧ r.units = u) ∧
    io_CreateInput (io_CreateInput st path dt u).2 path dt u =
      (LeResult.ok, (io_CreateInput st path dt u).2) := by
  have hlook : ∃ r : Resource,
      lookupE (io_CreateInput st path dt u).2.tree (joinPath st.clientNs path) =
        some ⟨AdminEntryType.input, r⟩ ∧ r.dataType = dt ∧ r.units = u ∧
      (io_CreateInput st path dt u).2.clientNs = st.clientNs := by
    cases hl : lookupE st.tree (joinPath st.clientNs path) with
    | none =>
      rw [io_CreateInput_creates st path dt u hl]
      refine ⟨⟨dt, u, none, none, [], 0⟩, ?_, rfl, rfl, rfl⟩
      unfold resTree_GetInput
      rw [hl]
      exact lookupE_setEntry_self _ _ _
    | some e =>
      cases he : e.entryType with
      | input =>
        by_cases hm : resTree_GetDataType e ≠ dt ∨ u ≠ resTree_GetUnits e
        · exfalso
          have hc : io_CreateInput st path dt u = (LeResult.duplicate, st) := by
            simp only [io_CreateInput, GetClientNamespace, hl]
            simp [he, hm]
          rw [hc] at h
          exact LeResult.noConfusion h
        · have hc : io_CreateInput st path dt u = (LeResult.ok, st) := by
            simp only [io_CreateInput, GetClientNamespace, hl]
            simp [he, hm]
          rw [hc]
          push_neg at hm
          refine ⟨e.res, ?_, hm.1, hm.2.symm, rfl⟩
          rw [hl, ← he]
      | output =>
        exfalso
        have hc : io_CreateInput st path dt u = (LeResult.duplicate, st) := by
          simp only [io_CreateInput, GetClientNamespace, hl]
          simp [he]
        rw [hc] at h
        exact LeResult.noConfusion h
      | observation =>
        exfalso
        have hc : io_CreateInput st path dt u = (LeResult.duplicate, st) := by
          simp only [io_CreateInput, GetClientNamespace, hl]
          simp [he]
        rw [hc] at h
        exact LeResult.noConfusion h
      | nspace =>
        rw [io_CreateInput_promotes st path dt u e hl (Or.inl he)]
        refine ⟨{ e.res with dataType := dt, units := u }, ?_, rfl, rfl, rfl⟩
        unfold resTree_GetInput
        rw [hl]
        exact lookupE_setEntry_self _ _ _
      | placeholder =>
        rw [io_CreateInput_promotes st path dt u e hl (Or.inr he)]
        refine ⟨{ e.res with dataType := dt, units := u }, ?_, rfl, rfl, rfl⟩
        unfold resTree_GetInput
        rw [hl]
        exact lookupE_setEntry_self _ _ _
  obtain ⟨r, hr, hdt, hu, hns⟩ := hlook
  refine ⟨⟨r, hr, hdt, hu⟩, ?_⟩
  apply io_CreateInput_matching_noop _ _ r _ _ _ hdt hu
  rw [hns]
  exact hr

/-- An empty client namespace, for the C7 witness. -/
def c7FreshState : IoState := ⟨[], "/app/test", 0⟩

/-- C7 witness: on a fresh path the first creation returns Ok, and the
repeated identical call returns Ok and changes nothing. -/
theorem c7_witness :
    io_CreateInput (io_CreateInput c7FreshState "x" IoDataType.numeric "m").2 "x"
        IoDataType.numeric "m" =
      (LeResult.ok, (io_CreateInput c7FreshState "x" IoDataType.numeric "m").2) := by
  exact (c7_create_input_idempotent_on_ok c7FreshState "x" IoDataType.numeric "m"
    (by decide)).2

/-- C8: on any resource (of whatever data type) that has a current value,
`query_GetJson` never returns FormatError: it returns the copy status of the
JSON projection of the current value — Ok, or Overflow when the caller's
buffer is too small — and writes that projection (truncated on overflow)
along with the sample's timestamp. -/
theorem c8_getJson_projects_every_kind
    (st : IoState) (p : String) (e : Entry) (s : DataSample)
    (tsIn : Dbl) (vIn : String) (size : Nat)
    (habs : startsWithStr p "/" = true)
    (hfind : lookupE st.tree p = some e)
    (hres : e.entryType ≠ AdminEntryType.nspace)
    (hcur : resTree_GetCurrentValue e = some s) :
    (query_GetJson st p tsIn vIn size).result ≠ LeResult.formatError ∧
    ((query_GetJson st p tsIn vIn size).result = LeResult.ok ∨
      (query_GetJson st p tsIn vIn size).result = LeResult.overflow) ∧
    query_GetJson st p tsIn vIn size =
      ⟨(le_utf8_Copy (jsonProjection e.res.dataType s) size vIn).1, s.timestamp,
        (le_utf8_Copy (jsonProjection e.res.dataType s) size vIn).2, false⟩ := by
  have habsfind : resTree_FindEntryAtAbsolutePath st.tree p = some e := by
    unfold resTree_FindEntryAtAbsolutePath
    simp [habs, hfind]
  have hnotns : resTree_IsResource e = true := by
    unfold resTree_IsResource
    simp [hres]
  have hq : query_GetJson st p tsIn vIn size =
      ⟨(le_utf8_Copy (jsonProjection e.res.dataType s) size vIn).1, s.timestamp,
        (le_utf8_Copy (jsonProjection e.res.dataType s) size vIn).2, false⟩ := by
    simp only [query_GetJson, habsfind, hnotns, hcur, dataSample_ConvertToJson,
      dataSample_GetTimestamp, resTree_GetDataType]
    by_cases hj : e.res.dataType = IoDataType.json
    · simp [hj, jsonProjection]
    · simp [hj]
  refine ⟨?_, ?_, hq⟩
  · rw [hq]
    rcases le_utf8_Copy_result (jsonProjection e.res.dataType s) size vIn with hh | hh <;>
      simp [hh]
  · rw [hq]
    exact le_utf8_Copy_result (jsonProjection e.res.dataType s) size vIn

/-- A Boolean Input holding a current value, for the C8 witness. -/
def c8Sample : DataSample := ⟨Dbl.val 6, SampleValue.boolVal true⟩

/-- The entry around that sample. -/
def c8Entry : Entry := ⟨AdminEntryType.input, ⟨IoDataType.boolean, "", some c8Sample, none, [], 0⟩⟩

/-- The state around that entry. -/
def c8State : IoState := ⟨[("/app/test/b", c8Entry)], "/app/test", 0⟩

/-- C8 witness: reading the Boolean Input through `query_GetJson` yields the
projection `true` with status Ok, not FormatError. -/
theorem c8_witness :
    (query_GetJson c8State "/app/test/b" (Dbl.val 9) "prev" 10).result ≠
      LeResult.formatError ∧
    query_GetJson c8State "/app/test/b" (Dbl.val 9) "prev" 10 =
      ⟨(le_utf8_Copy (jsonProjection c8Entry.res.dataType c8Sample) 10 "prev").1,
        c8Sample.timestamp,
        (le_utf8_Copy (jsonProjection c8Entry.res.dataType c8Sample) 10 "prev").2, false⟩ := by
  have h := c8_getJson_projects_every_kind c8State "/app/test/b" c8Entry c8Sample
    (Dbl.val 9) "prev" 10 (by decide) (by decide) (by decide) (by decide)
  exact ⟨h.1, h.2.2⟩

/-- C9: the query API's buffer and aggregate operations treat as not found
both any absolute path that does not begin with `/obs/` (whether or not an
entry exists there) and any path whose resolved entry is not an Observation:
`query_ReadBufferJson` returns NotFound and the aggregates return NaN. -/
theorem c9_non_observation_paths_not_found
    (st : IoState) (p : String) (sa tm : Dbl)
    (h : (startsWithStr p "/" = true ∧ startsWithStr p "/obs/" = false) ∨
      (∃ e, resolveObsEntry st.tree p = some e ∧
        e.entryType ≠ AdminEntryType.observation)) :
    query_ReadBufferJson st p sa = ReadBufferOutcome.notFound ∧
    query_GetMin st p tm = Dbl.nan ∧
    query_GetMax st p tm = Dbl.nan ∧
    query_GetMean st p tm = Dbl.nan ∧
    query_GetStdDev st p tm = Dbl.nan := by
  have hfo : FindObservation st.tree p = none := by
    rcases h with ⟨habs, hnobs⟩ | ⟨e, he, hrole⟩
    · unfold FindObservation resolveObsEntry
      simp [habs, hnobs]
    · unfold FindObservation
      rw [he]
      simp [resTree_GetEntryType, hrole]
  exact ⟨by simp [query_ReadBufferJson, hfo], by simp [query_GetMin, hfo],
    by simp [query_GetMax, hfo], by simp [query_GetMean, hfo],
    by simp [query_GetStdDev, hfo]⟩

/-- A numeric Input at the absolute path `/foo`, outside `/obs/`. -/
def c9Entry : Entry := ⟨AdminEntryType.input, ⟨IoDataType.numeric, "", none, none, [], 0⟩⟩

/-- The state around that entry. -/
def c9State : IoState := ⟨[("/foo", c9Entry)], "/app/test", 0⟩

/-- C9 witness: although an entry exists at `/foo`, the absolute path is not
under `/obs/`, so the buffer read reports NotFound and the aggregate NaN. -/
theorem c9_witness :
    query_ReadBufferJson c9State "/foo" (Dbl.val 1) = ReadBufferOutcome.notFound ∧
    query_GetMin c9State "/foo" (Dbl.val 0) = Dbl.nan := by
  have h := c9_non_observation_paths_not_found c9State "/foo" (Dbl.val 1) (Dbl.val 0)
    (Or.inl ⟨by decide, by decide⟩)
  exact ⟨h.1, h.2.1⟩

/-- C10: the client IO facade treats an entry whose role is Namespace,
Placeholder, or Observation exactly like a missing resource: every
`io_Push*` kills the client and leaves the whole state unchanged (no sample
is created), every `io_Get*` returns NotFound without touching its
out-parameters, and `io_DeleteResource` does nothing. -/
theorem c10_io_facade_ignores_non_io_roles
    (st : IoState) (rel : String) (e : Entry)
    (ts v : Dbl) (b : Bool) (sv jv : String)
    (tsIn : Dbl) (bIn : Bool) (nIn : Dbl) (strIn : String) (size : Nat)
    (hfind : lookupE st.tree (joinPath st.clientNs rel) = some e)
    (hrole : e.entryType = AdminEntryType.nspace ∨
      e.entryType = AdminEntryType.placeholder ∨
      e.entryType = AdminEntryType.observation) :
    io_PushTrigger st rel ts = (st, true) ∧
    io_PushBoolean st rel ts b = (st, true) ∧
    io_PushNumeric st rel ts v = (st, true) ∧
    io_PushString st rel ts sv = (st, true) ∧
    io_PushJson st rel ts jv = (st, true) ∧
    io_GetTimestamp st rel tsIn = (LeResult.notFound, tsIn) ∧
    io_GetBoolean st rel tsIn bIn = ⟨LeResult.notFound, tsIn, bIn, false⟩ ∧
    io_GetNumeric st rel tsIn nIn = ⟨LeResult.notFound, tsIn, nIn, false⟩ ∧
    io_GetString st rel tsIn strIn size = ⟨LeResult.notFound, tsIn, strIn, false⟩ ∧
    io_GetJson st rel tsIn strIn size = ⟨LeResult.notFound, tsIn, strIn, false⟩ ∧
    io_DeleteResource st rel = st := by
  have hfr : FindResource st rel = none := by
    apply FindResource_none_of_role st rel e hfind
    refine ⟨?_, ?_⟩ <;> rcases hrole with h | h | h <;> simp [h]
  exact ⟨by simp [io_PushTrigger, IoPush, hfr], by simp [io_PushBoolean, IoPush, hfr],
    by simp [io_PushNumeric, IoPush, hfr], by simp [io_PushString, IoPush, hfr],
    by simp [io_PushJson, IoPush, hfr], by simp [io_GetTimestamp, hfr],
    by simp [io_GetBoolean, hfr], by simp [io_GetNumeric, hfr],
    by simp [io_GetString, hfr], by simp [io_GetJson, hfr],
    by simp [io_DeleteResource, hfr]⟩

/-- An Observation at the client path `/app/test/w`, for the C10 witness. -/
def c10Entry : Entry :=
  ⟨AdminEntryType.observation, ⟨IoDataType.numeric, "", none, none, [], 0⟩⟩

/-- The state around that Observation. -/
def c10State : IoState := ⟨[("/app/test/w", c10Entry)], "/app/test", 0⟩

/-- C10 witness: pushing to, reading from, and deleting the Observation
through the client IO facade behaves exactly like a missing resource. -/
theorem c10_witness :
    io_PushNumeric c10State "w" (Dbl.val 2) (Dbl.val 3) = (c10State, true) ∧
    io_GetNumeric c10State "w" (Dbl.val 1) Dbl.nan =
      ⟨LeResult.notFound, Dbl.val 1, Dbl.nan, false⟩ ∧
    io_DeleteResource c10State "w" = c10State := by
  have h := c10_io_facade_ignores_non_io_roles c10State "w" c10Entry (Dbl.val 2)
    (Dbl.val 3) false "" "" (Dbl.val 1) false Dbl.nan "" 4 (by decide)
    (Or.inr (Or.inr (by decide)))
  exact ⟨h.2.2.1, h.2.2.2.2.2.2.2.1, h.2.2.2.2.2.2.2.2.2.2⟩

end LegatoDataHub
